import Mathlib

/-!
Verification development for the `bvh` repository (Simple BVH builder and
traverser, `src/bvh/simple.h`, plus the shared kernels in `src/bvh/util.h`).

Numeric model: the C++ code computes in IEEE-754 `float` / `double`.  We embed
scalars as `FP`: exact rational values extended with the IEEE special values
`+inf`, `-inf` and `nan`.  All arithmetic follows the IEEE rules for the
special values (`0 * inf = nan`, `x / 0 = ±inf` for `x ≠ 0`, comparisons with
`nan` are false, ...) and is exact on finite values; rounding is not modelled
except in the Woop triangle kernel, which is parametrised over the
single-precision and double-precision rounding maps `r32`, `r64` (the main
traverser instantiates both with `id`, the exact-arithmetic reading).  Every
concrete input used in the theorems below involves only small dyadic values
on code paths where `float` arithmetic is itself exact, so the model agrees
with the machine on these inputs.

Machine integers (`uint32_t`, `uint16_t`) are embedded as `Nat`; the values
arising here are all far below the wrap-around range, and the one narrowing
conversion that can fault (`static_cast<uint32_t>` of a `float` in the SAH
binning loop) is modelled faithfully by `fp_to_u32`, which returns `none`
exactly when the C++ conversion is undefined behaviour.  Out-of-bounds
container accesses (undefined behaviour in C++) make the embedded functions
return `none`.
-/

/-- Embedded IEEE-style scalar: an exact rational, `±inf`, or `nan`. -/
inductive FP where
  | num : ℚ → FP
  | pinf : FP
  | ninf : FP
  | nan : FP
deriving DecidableEq, Repr

/-- IEEE negation. -/
def FP.neg : FP → FP
  | FP.num q => FP.num (-q)
  | FP.pinf => FP.ninf
  | FP.ninf => FP.pinf
  | FP.nan => FP.nan

/-- IEEE addition (exact on finite values; `inf + -inf = nan`). -/
def FP.add : FP → FP → FP
  | FP.nan, _ => FP.nan
  | _, FP.nan => FP.nan
  | FP.num a, FP.num b => FP.num (a + b)
  | FP.num _, FP.pinf => FP.pinf
  | FP.num _, FP.ninf => FP.ninf
  | FP.pinf, FP.num _ => FP.pinf
  | FP.ninf, FP.num _ => FP.ninf
  | FP.pinf, FP.pinf => FP.pinf
  | FP.ninf, FP.ninf => FP.ninf
  | FP.pinf, FP.ninf => FP.nan
  | FP.ninf, FP.pinf => FP.nan

/-- IEEE subtraction. -/
def FP.sub (a b : FP) : FP := FP.add a (FP.neg b)

/-- IEEE multiplication (exact on finite values; `0 * inf = nan`). -/
def FP.mul : FP → FP → FP
  | FP.nan, _ => FP.nan
  | _, FP.nan => FP.nan
  | FP.num a, FP.num b => FP.num (a * b)
  | FP.num a, FP.pinf => if a = 0 then FP.nan else if 0 < a then FP.pinf else FP.ninf
  | FP.num a, FP.ninf => if a = 0 then FP.nan else if 0 < a then FP.ninf else FP.pinf
  | FP.pinf, FP.num b => if b = 0 then FP.nan else if 0 < b then FP.pinf else FP.ninf
  | FP.ninf, FP.num b => if b = 0 then FP.nan else if 0 < b then FP.ninf else FP.pinf
  | FP.pinf, FP.pinf => FP.pinf
  | FP.pinf, FP.ninf => FP.ninf
  | FP.ninf, FP.pinf => FP.ninf
  | FP.ninf, FP.ninf => FP.pinf

/-- IEEE division (exact on finite values; division by the unsigned zero of
this model follows the IEEE `+0` rule: `a / 0 = ±inf` by the sign of `a`,
`0 / 0 = nan`). -/
def FP.div : FP → FP → FP
  | FP.nan, _ => FP.nan
  | _, FP.nan => FP.nan
  | FP.num a, FP.num b =>
      if b = 0 then (if a = 0 then FP.nan else if 0 < a then FP.pinf else FP.ninf)
      else FP.num (a / b)
  | FP.num _, FP.pinf => FP.num 0
  | FP.num _, FP.ninf => FP.num 0
  | FP.pinf, FP.num b => if 0 ≤ b then FP.pinf else FP.ninf
  | FP.ninf, FP.num b => if 0 ≤ b then FP.ninf else FP.pinf
  | FP.pinf, FP.pinf => FP.nan
  | FP.pinf, FP.ninf => FP.nan
  | FP.ninf, FP.pinf => FP.nan
  | FP.ninf, FP.ninf => FP.nan

instance : Add FP := ⟨FP.add⟩
instance : Sub FP := ⟨FP.sub⟩
instance : Mul FP := ⟨FP.mul⟩
instance : Div FP := ⟨FP.div⟩
instance : Neg FP := ⟨FP.neg⟩

/-- IEEE `<` as a boolean: any comparison involving `nan` is false. -/
def FP.blt : FP → FP → Bool
  | FP.nan, _ => false
  | _, FP.nan => false
  | FP.num a, FP.num b => decide (a < b)
  | FP.num _, FP.pinf => true
  | FP.num _, FP.ninf => false
  | FP.pinf, FP.num _ => false
  | FP.ninf, FP.num _ => true
  | FP.pinf, FP.pinf => false
  | FP.ninf, FP.ninf => false
  | FP.ninf, FP.pinf => true
  | FP.pinf, FP.ninf => false

/-- IEEE `==` as a boolean: `nan` compares unequal to everything. -/
def FP.beq : FP → FP → Bool
  | FP.nan, _ => false
  | _, FP.nan => false
  | FP.num a, FP.num b => decide (a = b)
  | FP.pinf, FP.pinf => true
  | FP.ninf, FP.ninf => true
  | _, _ => false

/-- IEEE `>`. -/
def FP.bgt (a b : FP) : Bool := FP.blt b a

/-- IEEE `<=`. -/
def FP.ble (a b : FP) : Bool := FP.blt a b || FP.beq a b

/-- IEEE `>=`. -/
def FP.bge (a b : FP) : Bool := FP.ble b a

/-- C++ `std::min` on floats: `(b < a) ? b : a` (second operand dropped when
the comparison involves `nan`). -/
def FP.cmin (a b : FP) : FP := if FP.blt b a then b else a

/-- C++ `std::max` on floats: `(a < b) ? b : a`. -/
def FP.cmax (a b : FP) : FP := if FP.blt a b then b else a

/-- `fabsf`. -/
def FP.fabs : FP → FP
  | FP.num q => FP.num |q|
  | FP.pinf => FP.pinf
  | FP.ninf => FP.pinf
  | FP.nan => FP.nan

/-- `static_cast<uint32_t>` of a float: truncation toward zero, undefined
behaviour (hence `none`) when the truncated value is not representable in
`uint32_t` — in particular for `nan` and the infinities. -/
def fp_to_u32 : FP → Option ℕ
  | FP.num q =>
      let t : ℤ := if q < 0 then ⌈q⌉ else ⌊q⌋
      if 0 ≤ t ∧ t < 4294967296 then some t.toNat else none
  | _ => none

/-- `bvh::v3` (`src/bvh/util.h`): three `float` components. -/
structure v3 where
  x : FP
  y : FP
  z : FP
deriving DecidableEq, Repr

/-- `v3::operator[]`: the source indexes `*(&x + idx)` with `idx ∈ {0,1,2}`
always; any other index is out-of-bounds pointer arithmetic, given a junk
default here (never reached on the paths the theorems constrain). -/
def v3.get : v3 → ℕ → FP
  | v, 0 => v.x
  | v, 1 => v.y
  | v, 2 => v.z
  | _, _ => FP.nan

/-- `dot` (`src/bvh/util.h`). -/
def dot (a b : v3) : FP := a.x * b.x + a.y * b.y + a.z * b.z

/-- `cross` (`src/bvh/util.h`). -/
def cross (a b : v3) : v3 :=
  ⟨a.y * b.z - a.z * b.y, a.z * b.x - a.x * b.z, a.x * b.y - a.y * b.x⟩

/-- `v3 operator+` (`src/bvh/util.h`). -/
def v3.add (a b : v3) : v3 := ⟨a.x + b.x, a.y + b.y, a.z + b.z⟩

/-- `v3 operator-` (`src/bvh/util.h`). -/
def v3.sub (a b : v3) : v3 := ⟨a.x - b.x, a.y - b.y, a.z - b.z⟩

/-- `v3 operator/ (v3, float)` (`src/bvh/util.h`). -/
def v3.divs (a : v3) (b : FP) : v3 := ⟨a.x / b, a.y / b, a.z / b⟩

/-- `bvh::min` on `v3`: componentwise `std::min` (`src/bvh/util.h`). -/
def v3.cmin (a b : v3) : v3 := ⟨FP.cmin a.x b.x, FP.cmin a.y b.y, FP.cmin a.z b.z⟩

/-- `bvh::max` on `v3`: componentwise `std::max` (`src/bvh/util.h`). -/
def v3.cmax (a b : v3) : v3 := ⟨FP.cmax a.x b.x, FP.cmax a.y b.y, FP.cmax a.z b.z⟩

/-- `max_dim` (`src/bvh/util.h`, lines 93–111): index of the component with
the largest absolute value; the comparisons are strict, so equal magnitudes
fall through to the later axis. -/
def max_dim (a : v3) : ℕ :=
  if FP.bgt (FP.fabs a.x) (FP.fabs a.y) then
    (if FP.bgt (FP.fabs a.x) (FP.fabs a.z) then 0 else 2)
  else
    (if FP.bgt (FP.fabs a.y) (FP.fabs a.z) then 1 else 2)

/-- `bvh::WoopRay` (`src/bvh/util.h`). -/
structure WoopRay where
  org : v3
  Sx : FP
  Sy : FP
  Sz : FP
  x_index : ℕ
  y_index : ℕ
  z_index : ℕ
deriving DecidableEq, Repr

/-- `woop_ray` (`src/bvh/util.h`, lines 126–144): dominant-axis permutation
and shear coefficients. -/
def woop_ray (org dir : v3) : WoopRay :=
  let zi := max_dim dir
  let xi0 := (zi + 1) % 3
  let yi0 := (zi + 2) % 3
  let (xi, yi) := if FP.blt (dir.get zi) (FP.num 0) then (yi0, xi0) else (xi0, yi0)
  { org := org
    Sx := dir.get xi / dir.get zi
    Sy := dir.get yi / dir.get zi
    Sz := FP.num 1 / dir.get zi
    x_index := xi, y_index := yi, z_index := zi }

/-- Vector subtraction with every component rounded by the single-precision
rounding map `r32` (used by the Woop kernel, where rounding is modelled). -/
def v3.rsub (r32 : FP → FP) (a b : v3) : v3 :=
  ⟨r32 (a.x - b.x), r32 (a.y - b.y), r32 (a.z - b.z)⟩

/-- The translated vertex `A = P - org` of the Woop kernel
(`src/bvh/util.h`, lines 149–151). -/
def woopA (r32 : FP → FP) (r : WoopRay) (p : v3) : v3 := v3.rsub r32 p r.org

/-- The sheared x-coordinate `Ax = A[x_index] - Sx * A[z_index]`
(`src/bvh/util.h`, lines 153–158). -/
def woopX (r32 : FP → FP) (r : WoopRay) (p : v3) : FP :=
  r32 ((woopA r32 r p).get r.x_index - r32 (r.Sx * (woopA r32 r p).get r.z_index))

/-- The sheared y-coordinate `Ay = A[y_index] - Sy * A[z_index]`. -/
def woopY (r32 : FP → FP) (r : WoopRay) (p : v3) : FP :=
  r32 ((woopA r32 r p).get r.y_index - r32 (r.Sy * (woopA r32 r p).get r.z_index))

/-- First-pass single-precision edge functions `U, V, W`
(`src/bvh/util.h`, lines 160–162). -/
def woopUVW1 (r32 : FP → FP) (r : WoopRay) (p0 p1 p2 : v3) : FP × FP × FP :=
  let Ax := woopX r32 r p0
  let Ay := woopY r32 r p0
  let Bx := woopX r32 r p1
  let By := woopY r32 r p1
  let Cx := woopX r32 r p2
  let Cy := woopY r32 r p2
  (r32 (r32 (Cx * By) - r32 (Cy * Bx)),
   r32 (r32 (Ax * Cy) - r32 (Ay * Cx)),
   r32 (r32 (Bx * Ay) - r32 (By * Ax)))

/-- Double-precision fallback for the edge functions: each product is a
double multiplication (`r64`), the difference a double subtraction (`r64`),
and the result is cast back to single precision (`r32`)
(`src/bvh/util.h`, lines 166–174). -/
def woopUVW2 (r32 r64 : FP → FP) (r : WoopRay) (p0 p1 p2 : v3) : FP × FP × FP :=
  let Ax := woopX r32 r p0
  let Ay := woopY r32 r p0
  let Bx := woopX r32 r p1
  let By := woopY r32 r p1
  let Cx := woopX r32 r p2
  let Cy := woopY r32 r p2
  (r32 (r64 (r64 (Cx * By) - r64 (Cy * Bx))),
   r32 (r64 (r64 (Ax * Cy) - r64 (Ay * Cx))),
   r32 (r64 (r64 (Bx * Ay) - r64 (By * Ax))))

/-- The edge functions actually used by the kernel: the first pass, replaced
wholesale by the double-precision fallback when any of them is exactly zero
(`src/bvh/util.h`, line 164). -/
def woopUVW (r32 r64 : FP → FP) (r : WoopRay) (p0 p1 p2 : v3) : FP × FP × FP :=
  let f := woopUVW1 r32 r p0 p1 p2
  if FP.beq f.1 (FP.num 0) || FP.beq f.2.1 (FP.num 0) || FP.beq f.2.2 (FP.num 0) then
    woopUVW2 r32 r64 r p0 p1 p2
  else f

/-- Result of `woop_ray_vs_triangle`: the values left in `bary[0]`, `bary[1]`
and `*d` after the call, and the boolean return value.  The source writes
through these pointers only on the success path, so every early `return
false` leaves them at their input values. -/
structure WoopRes where
  bary0 : FP
  bary1 : FP
  d : FP
  hitb : Bool
deriving DecidableEq, Repr

/-- `woop_ray_vs_triangle` (`src/bvh/util.h`, lines 147–199), parametrised
over the single/double rounding maps; `bary0`, `bary1`, `d` are the values
behind the output pointers at entry (note the traverser passes its running
`max_t` both as the `max_t` parameter and as `d`). -/
def woop_ray_vs_triangle (r32 r64 : FP → FP) (r : WoopRay) (min_t max_t : FP)
    (p0 p1 p2 : v3) (bary0 bary1 d : FP) : WoopRes :=
  let f := woopUVW r32 r64 r p0 p1 p2
  let U := f.1
  let V := f.2.1
  let W := f.2.2
  if (FP.blt U (FP.num 0) || FP.blt V (FP.num 0) || FP.blt W (FP.num 0)) &&
     (FP.bgt U (FP.num 0) || FP.bgt V (FP.num 0) || FP.bgt W (FP.num 0)) then
    ⟨bary0, bary1, d, false⟩
  else
    let det := r32 (r32 (U + V) + W)
    if FP.beq det (FP.num 0) then ⟨bary0, bary1, d, false⟩
    else
      let Az := r32 (r.Sz * (woopA r32 r p0).get r.z_index)
      let Bz := r32 (r.Sz * (woopA r32 r p1).get r.z_index)
      let Cz := r32 (r.Sz * (woopA r32 r p2).get r.z_index)
      let T := r32 (r32 (r32 (U * Az) + r32 (V * Bz)) + r32 (W * Cz))
      let rcp_det := r32 (FP.num 1 / det)
      let t := r32 (T * rcp_det)
      if FP.blt t min_t || FP.bgt t max_t then ⟨bary0, bary1, d, false⟩
      else ⟨r32 (V * rcp_det), r32 (W * rcp_det), t, true⟩

/-- `ray_vs_bounds` (`src/bvh/util.h`, lines 202–223): slab test with
precomputed reciprocal directions, using the C++ `std::min`/`std::max`
semantics componentwise. -/
def ray_vs_bounds (org inv_dir : v3) (tmin0 tmax0 : FP) (bmin bmax : v3) : Bool :=
  let tx1 := (bmin.x - org.x) * inv_dir.x
  let tx2 := (bmax.x - org.x) * inv_dir.x
  let tmin := FP.cmax tmin0 (FP.cmin tx1 tx2)
  let tmax := FP.cmin tmax0 (FP.cmax tx1 tx2)
  let ty1 := (bmin.y - org.y) * inv_dir.y
  let ty2 := (bmax.y - org.y) * inv_dir.y
  let tmin := FP.cmax tmin (FP.cmin ty1 ty2)
  let tmax := FP.cmin tmax (FP.cmax ty1 ty2)
  let tz1 := (bmin.z - org.z) * inv_dir.z
  let tz2 := (bmax.z - org.z) * inv_dir.z
  let tmin := FP.cmax tmin (FP.cmin tz1 tz2)
  let tmax := FP.cmin tmax (FP.cmax tz1 tz2)
  FP.bge tmax tmin

/-- `ray_vs_triangle` (`src/bvh/util.h`, lines 226–261): the Möller–Trumbore
reference test, `some (u, v, t)` on a hit (exact-arithmetic reading). -/
def ray_vs_triangle (org dir : v3) (min_t max_t : FP) (p0 p1 p2 : v3) :
    Option (FP × FP × FP) :=
  let EPSILON := FP.num (1 / 100000)
  let edge1 := v3.sub p1 p0
  let edge2 := v3.sub p2 p0
  let h := cross dir edge2
  let a := dot edge1 h
  if FP.bgt a (FP.neg EPSILON) && FP.blt a EPSILON then none
  else
    let f := FP.num 1 / a
    let s := v3.sub org p0
    let u := f * dot s h
    if FP.blt u (FP.num 0) || FP.bgt u (FP.num 1) then none
    else
      let q := cross s edge1
      let v := f * dot dir q
      if FP.blt v (FP.num 0) || FP.bgt (u + v) (FP.num 1) then none
      else
        let t := f * dot edge2 q
        if FP.blt t min_t || FP.bgt t max_t then none
        else some (u, v, t)

/-- `bvh::Mesh` (`src/bvh/base.h`): borrowed indexed triangle mesh. -/
structure Mesh where
  vertices : ℕ
  triangles : ℕ
  positions : List FP
  indices : List ℕ
deriving DecidableEq, Repr

/-- Read vertex `i` of the mesh: `v3(positions + 3*i)`; `none` when the read
is out of bounds (undefined behaviour in the source). -/
def Mesh.vert (m : Mesh) (i : ℕ) : Option v3 := do
  let a ← m.positions.get? (3 * i)
  let b ← m.positions.get? (3 * i + 1)
  let c ← m.positions.get? (3 * i + 2)
  pure ⟨a, b, c⟩

/-- Read corner `k` of triangle `t`: `positions + 3 * indices[3*t + k]`. -/
def Mesh.corner (m : Mesh) (t k : ℕ) : Option v3 := do
  let i ← m.indices.get? (3 * t + k)
  m.vert i

/-- `bvh::Ray` (`src/bvh/base.h`). -/
structure Ray where
  origin : v3
  min_t : FP
  direction : v3
  max_t : FP
deriving DecidableEq, Repr

/-- `bvh::Hit` (`src/bvh/base.h`); the source leaves `barycentric`
uninitialized until a triangle test succeeds, modelled as starting at 0
(never observed by the claims when `triangle == TRIANGLE_INVALID`). -/
structure Hit where
  triangle : ℕ
  bary0 : FP
  bary1 : FP
deriving DecidableEq, Repr

/-- `bvh::TRIANGLE_INVALID = 0xFFFFFFFF` (`src/bvh/base.h`). -/
def TRIANGLE_INVALID : ℕ := 4294967295

/-- `bvh::TRACE_COHERENT` (`src/bvh/base.h`). -/
def TRACE_COHERENT : ℕ := 1

/-- `bvh::TRACE_SHADOW` (`src/bvh/base.h`). -/
def TRACE_SHADOW : ℕ := 2

/-- `Simple::INVALID = (uint32_t)-1` (`src/bvh/simple.h`). -/
def Simple.INVALID : ℕ := 4294967295

/-- `Simple::Prim` (`src/bvh/simple.h`, lines 324–331).  The source also
stores a `float area` (from `triangle_area`, whose definition is not part of
the provided sources); that field is written once and never read anywhere in
the repository, and the spec's own description of Prim omits it, so it is
omitted here as dead state. -/
structure Prim where
  pmin : v3
  pmax : v3
  mid : v3
  index : ℕ
deriving DecidableEq, Repr

/-- `Simple::Volume` (`src/bvh/simple.h`, lines 333–340). -/
structure Volume where
  first : ℕ := 0
  last : ℕ := 0
  parent : ℕ := Simple.INVALID
  vmin : v3 := ⟨FP.pinf, FP.pinf, FP.pinf⟩
  vmax : v3 := ⟨FP.ninf, FP.ninf, FP.ninf⟩
deriving DecidableEq, Repr

/-- `Simple::Bin` (`src/bvh/simple.h`, lines 342–351).  The dead `float area
= 0` member is omitted; `right_min`/`right_max` are default-constructed
(uninitialized floats) in the source and always written before being read —
they start at 0 here. -/
structure Bin where
  bmin : v3 := ⟨FP.pinf, FP.pinf, FP.pinf⟩
  bmax : v3 := ⟨FP.ninf, FP.ninf, FP.ninf⟩
  count : ℕ := 0
  right_min : v3 := ⟨FP.num 0, FP.num 0, FP.num 0⟩
  right_max : v3 := ⟨FP.num 0, FP.num 0, FP.num 0⟩
  right_count : ℕ := 0
deriving DecidableEq, Repr

/-- `Simple::Node` (`src/bvh/simple.h`, lines 353–360). -/
structure Node where
  nmin : v3 := ⟨FP.pinf, FP.pinf, FP.pinf⟩
  nmax : v3 := ⟨FP.ninf, FP.ninf, FP.ninf⟩
  offset : ℕ := 0
  count : ℕ := 0
  axis : ℕ := 0
deriving DecidableEq, Repr

/-- `Simple::Triangle` (`src/bvh/simple.h`, lines 362–368). -/
structure Triangle where
  p0 : v3
  p1 : v3
  p2 : v3
  index : ℕ
deriving DecidableEq, Repr

/-- The accelerator's owned state: `_nodes` and `_triangles`
(`src/bvh/simple.h`, lines 370–371). -/
structure Accel where
  nodes : List Node
  triangles : List Triangle
deriving DecidableEq, Repr

/-- Update node `i` in place; `none` when `i` is out of bounds. -/
def modifyNode (nodes : List Node) (i : ℕ) (f : Node → Node) : Option (List Node) :=
  match nodes.get? i with
  | none => none
  | some n => some (nodes.set i (f n))

/-- `MAX_NODE_SIZE` (`src/bvh/simple.h`, line 58). -/
def MAX_NODE_SIZE : ℕ := 4

/-- `BINS` (`src/bvh/simple.h`, line 82). -/
def BINS : ℕ := 256

/-- Modelled from the spec: `aabb_area` is used by `Simple::build`
(`src/bvh/simple.h`, lines 121–122) but its definition is not among the
provided sources; the spec gives `area(aabb) = 2 * (dx*dy + dy*dz + dz*dx)`. -/
def aabb_area (bmin bmax : v3) : FP :=
  let dx := bmax.x - bmin.x
  let dy := bmax.y - bmin.y
  let dz := bmax.z - bmin.z
  FP.num 2 * (dx * dy + dy * dz + dz * dx)

/-- The per-triangle summary pass of `Simple::build` (`src/bvh/simple.h`,
lines 30–54): builds the `prims` list and accumulates the root volume's
centroid bounds.  Iterates `ii` from 0 while `todo` counts down. -/
def build_prims (m : Mesh) : ℕ → ℕ → List Prim → v3 → v3 →
    Option (List Prim × v3 × v3)
  | _, 0, prims, vmin, vmax => some (prims, vmin, vmax)
  | ii, todo + 1, prims, vmin, vmax => do
    let v0 ← m.corner ii 0
    let v1 ← m.corner ii 1
    let v2 ← m.corner ii 2
    let p : Prim :=
      { pmin := v3.cmin v0 (v3.cmin v1 v2)
        pmax := v3.cmax v0 (v3.cmax v1 v2)
        mid := v3.divs (v3.add (v3.add v0 v1) v2) (FP.num 3)
        index := ii }
    build_prims m (ii + 1) todo (prims ++ [p]) (v3.cmin vmin p.mid) (v3.cmax vmax p.mid)

/-- The binning pass (`src/bvh/simple.h`, lines 87–98): for each prim in
`[ii, ii+todo)` compute its bin index by the float cast and accumulate; the
cast of a `nan`/out-of-range value is undefined behaviour (`none`), as is a
resulting out-of-bounds `bins[b]` access. -/
def fill_bins (prims : List Prim) (axis : ℕ) (bin_min bin_scale : FP) :
    ℕ → ℕ → List Bin → Option (List Bin)
  | _, 0, bins => some bins
  | ii, todo + 1, bins => do
    let p ← prims.get? ii
    let b ← fp_to_u32 ((p.mid.get axis - bin_min) * bin_scale)
    let bin ← bins.get? b
    let bin2 : Bin := { bin with
      count := bin.count + 1
      bmin := v3.cmin bin.bmin p.pmin
      bmax := v3.cmax bin.bmax p.pmax }
    fill_bins prims axis bin_min bin_scale (ii + 1) todo (bins.set b bin2)

/-- One step of the right-suffix accumulation (`src/bvh/simple.h`,
lines 104–111): write bin `ii`'s right-hand sums from bin `ii+1`. -/
def suffix_step (bins : List Bin) (ii : ℕ) : Option (List Bin) := do
  let b ← bins.get? ii
  let bn ← bins.get? (ii + 1)
  pure (bins.set ii { b with
    right_count := bn.right_count + b.count
    right_min := v3.cmin bn.right_min b.bmin
    right_max := v3.cmax bn.right_max b.bmax })

/-- The `while (ii > 0) { ii--; ... }` suffix loop: processes indices
`k-1, k-2, ..., 0`. -/
def suffix_loop (bins : List Bin) : ℕ → Option (List Bin)
  | 0 => some bins
  | k + 1 => do
    let bins2 ← suffix_step bins k
    suffix_loop bins2 k

/-- The right-suffix sums over the bins (`src/bvh/simple.h`, lines 100–111):
initialize bin `BINS-1` from itself, then walk down. -/
def suffix_bins (bins : List Bin) : Option (List Bin) := do
  let last ← bins.get? (BINS - 1)
  let bins2 := bins.set (BINS - 1)
    { last with right_count := last.count, right_min := last.bmin, right_max := last.bmax }
  suffix_loop bins2 (BINS - 1)

/-- The SAH scan (`src/bvh/simple.h`, lines 113–132): candidate splits
`ii ∈ [1, BINS)`, carrying the left prefix and the best index; strict
improvement only, so ties keep the first minimiser. -/
def best_split_loop (bins : List Bin) :
    ℕ → ℕ → ℕ → v3 → v3 → ℕ → FP → Option ℕ
  | _, 0, _, _, _, best_index, _ => some best_index
  | ii, todo + 1, left_count, left_min, left_max, best_index, best_sah => do
    let b ← bins.get? ii
    let sah := FP.num (left_count : ℚ) * aabb_area left_min left_max +
               FP.num (b.right_count : ℚ) * aabb_area b.right_min b.right_max
    let (best_index2, best_sah2) :=
      if FP.blt sah best_sah then (ii, sah) else (best_index, best_sah)
    best_split_loop bins (ii + 1) todo (left_count + b.count)
      (v3.cmin left_min b.bmin) (v3.cmax left_max b.bmax) best_index2 best_sah2

/-- Run the SAH scan from bin 1 with the prefix seeded from bin 0. -/
def best_split (bins : List Bin) : Option ℕ := do
  let b0 ← bins.get? 0
  best_split_loop bins 1 (BINS - 1) b0.count b0.bmin b0.bmax 0 FP.pinf

/-- The in-place partition loop (`src/bvh/simple.h`, lines 141–163): prims
with centroid below the split go left, the rest are swapped to the end;
returns the updated prim list, the pivot `l`, and the two children's centroid
bounds. -/
def partition_prims (axis : ℕ) (split : FP) (prims : List Prim) (l r : ℕ)
    (lmin lmax rmin rmax : v3) :
    Option (List Prim × ℕ × v3 × v3 × v3 × v3) :=
  if _h : l < r then
    match prims.get? l with
    | none => none
    | some p =>
      if FP.blt (p.mid.get axis) split then
        partition_prims axis split prims (l + 1) r
          (v3.cmin lmin p.mid) (v3.cmax lmax p.mid) rmin rmax
      else
        match prims.get? (r - 1) with
        | none => none
        | some q =>
          partition_prims axis split ((prims.set l q).set (r - 1) p) l (r - 1)
            lmin lmax (v3.cmin rmin p.mid) (v3.cmax rmax p.mid)
  else some (prims, l, lmin, lmax, rmin, rmax)
termination_by r - l
decreasing_by
  all_goals omega

/-- The leaf emission loop (`src/bvh/simple.h`, lines 194–213): copy each
prim's triangle into the owned triangle list and grow the node's geometric
bounds from the vertices. -/
def add_triangles (m : Mesh) (prims : List Prim) (node_index : ℕ) :
    ℕ → ℕ → List Node → List Triangle → Option (List Node × List Triangle)
  | _, 0, nodes, tris => some (nodes, tris)
  | ii, todo + 1, nodes, tris => do
    let p ← prims.get? ii
    let v0 ← m.corner p.index 0
    let v1 ← m.corner p.index 1
    let v2 ← m.corner p.index 2
    let tri : Triangle := ⟨v0, v1, v2, p.index⟩
    let nodes2 ← modifyNode nodes node_index (fun n =>
      { n with
        nmin := v3.cmin (v3.cmin n.nmin v0) (v3.cmin v1 v2)
        nmax := v3.cmax (v3.cmax n.nmax v0) (v3.cmax v1 v2) })
    add_triangles m prims node_index (ii + 1) todo nodes2 (tris ++ [tri])

/-- The main split loop of `Simple::build` (`src/bvh/simple.h`, lines 60–223),
with the pending volumes as an explicit stack and a fuel bound on the number
of iterations (`none` when the fuel runs out). -/
def build_loop (m : Mesh) : ℕ → List Node → List Triangle → List Prim →
    Volume → List Volume → Option (List Node × List Triangle)
  | 0, _, _, _, _, _ => none
  | fuel + 1, nodes0, tris, prims, vol, stack => do
    let node_index := nodes0.length
    let nodes1 := nodes0 ++ [({} : Node)]
    let nodes ←
      if vol.parent ≠ Simple.INVALID then
        modifyNode nodes1 vol.parent (fun n => { n with offset := node_index })
      else pure nodes1
    let count := vol.last - vol.first
    if count > MAX_NODE_SIZE then do
      let delta := v3.sub vol.vmax vol.vmin
      let axis := max_dim delta
      let nodes ← modifyNode nodes node_index (fun n => { n with axis := axis })
      let bin_min := vol.vmin.get axis
      let bin_scale := FP.num (BINS : ℚ) / (delta.get axis * FP.num (100001 / 100000))
      let bins ← fill_bins prims axis bin_min bin_scale vol.first count
        (List.replicate BINS ({} : Bin))
      let bins ← suffix_bins bins
      let best_index ← best_split bins
      let split := bin_min + FP.num (best_index : ℚ) / bin_scale
      let (prims2, l0, lmin, lmax, rmin, rmax) ←
        partition_prims axis split prims vol.first vol.last
          ⟨FP.pinf, FP.pinf, FP.pinf⟩ ⟨FP.ninf, FP.ninf, FP.ninf⟩
          ⟨FP.pinf, FP.pinf, FP.pinf⟩ ⟨FP.ninf, FP.ninf, FP.ninf⟩
      let (l, lmin, lmax, rmin, rmax) :=
        if l0 = vol.first ∨ l0 = vol.last then
          ((vol.first + vol.last) / 2, vol.vmin, vol.vmax, vol.vmin, vol.vmax)
        else (l0, lmin, lmax, rmin, rmax)
      let left : Volume :=
        { first := vol.first, last := l, parent := Simple.INVALID, vmin := lmin, vmax := lmax }
      let right : Volume :=
        { first := l, last := vol.last, parent := node_index, vmin := rmin, vmax := rmax }
      build_loop m fuel nodes tris prims2 left (right :: stack)
    else do
      let nodes ← modifyNode nodes node_index (fun n =>
        { n with offset := tris.length, count := count })
      let (nodes, tris) ← add_triangles m prims node_index vol.first count nodes tris
      match stack with
      | [] => some (nodes, tris)
      | v :: rest => build_loop m fuel nodes tris prims v rest

/-- One step of the bounds-propagation pass (`src/bvh/simple.h`,
lines 233–240): an internal node (`count == 0`) takes the union of its
children's bounds; reading a child index past the end of the node array is
undefined behaviour (`none`). -/
def propagate_step (nodes : List Node) (idx : ℕ) : Option (List Node) := do
  let n ← nodes.get? idx
  if n.count = 0 then do
    let nl ← nodes.get? (idx + 1)
    let nr ← nodes.get? n.offset
    pure (nodes.set idx { n with
      nmin := v3.cmin nl.nmin nr.nmin
      nmax := v3.cmax nl.nmax nr.nmax })
  else pure nodes

/-- The backwards walk of the propagation pass (`src/bvh/simple.h`,
lines 228–241): `idx` runs from the node count down to 0. -/
def propagate (nodes : List Node) : ℕ → Option (List Node)
  | 0 => some nodes
  | k + 1 => do
    let nodes2 ← propagate_step nodes k
    propagate nodes2 k

/-- `Simple::build` (`src/bvh/simple.h`, lines 23–242).  Note the source
never clears `_nodes` or `_triangles`: the loop appends to whatever the
accelerator already holds.  `fuel` bounds the split-loop iterations. -/
def Simple.build (fuel : ℕ) (acc : Accel) (m : Mesh) : Option Accel := do
  let (prims, vmin, vmax) ← build_prims m 0 m.triangles [] ⟨FP.pinf, FP.pinf, FP.pinf⟩
    ⟨FP.ninf, FP.ninf, FP.ninf⟩
  let vol : Volume :=
    { first := 0, last := m.triangles, parent := Simple.INVALID, vmin := vmin, vmax := vmax }
  let (nodes, tris) ← build_loop m fuel acc.nodes acc.triangles prims vol []
  let nodes ← propagate nodes nodes.length
  pure ⟨nodes, tris⟩

/-- The leaf triangle loop of `Simple::trace` (`src/bvh/simple.h`,
lines 293–306): test `count` stored triangles starting at `offset` against
the Woop kernel (exact-arithmetic instantiation), updating the hit record and
the running `max_t` (the kernel's `d` pointer aliases `max_t` in the source).
The returned flag records whether the shadow early-out fired (the source then
clears the stack and breaks). -/
def leaf_loop (acc : Accel) (flags : ℕ) (wr : WoopRay) (min_t : FP) :
    ℕ → ℕ → Hit → FP → Option (Hit × FP × Bool)
  | _, 0, hit, max_t => some (hit, max_t, false)
  | offset, todo + 1, hit, max_t =>
    match acc.triangles.get? offset with
    | none => none
    | some tri =>
      let res := woop_ray_vs_triangle id id wr min_t max_t tri.p0 tri.p1 tri.p2
        hit.bary0 hit.bary1 max_t
      let hit2 : Hit := ⟨if res.hitb then tri.index else hit.triangle, res.bary0, res.bary1⟩
      if res.hitb && decide (flags &&& TRACE_SHADOW ≠ 0) then some (hit2, res.d, true)
      else leaf_loop acc flags wr min_t (offset + 1) todo hit2 res.d

/-- The per-ray traversal loop of `Simple::trace` (`src/bvh/simple.h`,
lines 264–314): stackful descent from the root with direction-ordered
children; `none` models an out-of-bounds node read or fuel exhaustion (the
source has no termination guarantee on malformed node graphs). -/
def trace_loop (acc : Accel) (flags : ℕ) (wr : WoopRay) (org dir inv_dir : v3)
    (min_t : FP) : ℕ → List ℕ → ℕ → Hit → FP → Option (Hit × FP)
  | 0, _, _, _, _ => none
  | fuel + 1, stack, node_index, hit, max_t =>
    match acc.nodes.get? node_index with
    | none => none
    | some node =>
      if ray_vs_bounds org inv_dir min_t max_t node.nmin node.nmax then
        if node.count = 0 then
          if FP.bgt (dir.get node.axis) (FP.num 0) then
            trace_loop acc flags wr org dir inv_dir min_t fuel
              (node.offset :: stack) (node_index + 1) hit max_t
          else
            trace_loop acc flags wr org dir inv_dir min_t fuel
              ((node_index + 1) :: stack) node.offset hit max_t
        else
          match leaf_loop acc flags wr min_t node.offset node.count hit max_t with
          | none => none
          | some (hit2, max_t2, brk) =>
            match (if brk then [] else stack) with
            | [] => some (hit2, max_t2)
            | top :: rest =>
              trace_loop acc flags wr org dir inv_dir min_t fuel rest top hit2 max_t2
      else
        match stack with
        | [] => some (hit, max_t)
        | top :: rest =>
          trace_loop acc flags wr org dir inv_dir min_t fuel rest top hit max_t

/-- The per-ray body of `Simple::trace` (`src/bvh/simple.h`, lines 252–316):
copies the ray fields into locals, prepares the reciprocal directions and the
Woop ray, and runs the traversal from node 0.  Returns the emitted `Hit`
together with the final value of the function-local `max_t`. -/
def trace_ray (acc : Accel) (flags fuel : ℕ) (r : Ray) : Option (Hit × FP) :=
  let hit0 : Hit := ⟨TRIANGLE_INVALID, FP.num 0, FP.num 0⟩
  let inv_dir : v3 := ⟨FP.num 1 / r.direction.x, FP.num 1 / r.direction.y,
    FP.num 1 / r.direction.z⟩
  let wr := woop_ray r.origin r.direction
  trace_loop acc flags wr r.origin r.direction inv_dir r.min_t fuel [] 0 hit0 r.max_t

/-- `Simple::trace` (`src/bvh/simple.h`, lines 245–318) over a batch of rays.
The result pairs the contents of the caller's ray array after the call with
the hits written to the output array; the source reads `input[ii]` into
locals and never stores to the ray array, so the rays component is the input
list itself. -/
def Simple.trace (acc : Accel) (rays : List Ray) (flags fuel : ℕ) :
    Option (List Ray × List Hit) :=
  match rays.mapM (trace_ray acc flags fuel) with
  | none => none
  | some results => some (rays, results.map Prod.fst)

/-- Modelled from the spec: the brute-force reference loop of §8 property 5
("the brute-force closest triangle") is part of the test suite, which is not
among the provided sources.  It takes the closest intersection over all mesh
triangles, using the repository's own `ray_vs_triangle` reference kernel
(`src/bvh/util.h`, lines 226–261, cited by the claim), shrinking the running
`max_t` on each hit; `none` when the mesh reads are out of bounds. -/
def brute_force_closest (m : Mesh) (r : Ray) :
    ℕ → ℕ → Option (ℕ × FP) → FP → Option (Option (ℕ × FP))
  | _, 0, best, _ => some best
  | ii, todo + 1, best, max_t => do
    let p0 ← m.corner ii 0
    let p1 ← m.corner ii 1
    let p2 ← m.corner ii 2
    match ray_vs_triangle r.origin r.direction r.min_t max_t p0 p1 p2 with
    | some (_, _, t) => brute_force_closest m r (ii + 1) todo (some (ii, t)) t
    | none => brute_force_closest m r (ii + 1) todo best max_t

/-- Run the brute-force reference over all `T` triangles of the mesh. -/
def brute_force (m : Mesh) (r : Ray) : Option (Option (ℕ × FP)) :=
  brute_force_closest m r 0 m.triangles none r.max_t

/-- A freshly constructed accelerator: empty node and triangle arrays. -/
def emptyAccel : Accel := ⟨[], []⟩

/-- The degenerate mesh of scenario S5: `V = 0`, `T = 0`. -/
def emptyMesh : Mesh := ⟨0, 0, [], []⟩

/-- The mesh of scenario S1: the single triangle `(0,0,0), (1,0,0), (0,1,0)`. -/
def s1mesh : Mesh := ⟨3, 1,
  [FP.num 0, FP.num 0, FP.num 0,
   FP.num 1, FP.num 0, FP.num 0,
   FP.num 0, FP.num 1, FP.num 0],
  [0, 1, 2]⟩

/-- The ray of scenario S1: origin `(0.25, 0.25, -1)`, direction `(0,0,1)`,
`min_t = 0`, `max_t = ∞`. -/
def s1ray : Ray := ⟨⟨FP.num (1/4), FP.num (1/4), FP.num (-1)⟩, FP.num 0,
  ⟨FP.num 0, FP.num 0, FP.num 1⟩, FP.pinf⟩

/-- Two disjoint unit triangles: triangle 0 near the origin, triangle 1
shifted by `+2` in x. -/
def c2mesh : Mesh := ⟨6, 2,
  [FP.num 0, FP.num 0, FP.num 0,
   FP.num 1, FP.num 0, FP.num 0,
   FP.num 0, FP.num 1, FP.num 0,
   FP.num 2, FP.num 0, FP.num 0,
   FP.num 3, FP.num 0, FP.num 0,
   FP.num 2, FP.num 1, FP.num 0],
  [0, 1, 2, 3, 4, 5]⟩

/-- A ray through triangle 1 of `c2mesh` only: origin `(2.25, 0.25, -1)`,
direction `(0,0,1)`. -/
def c2ray : Ray := ⟨⟨FP.num (9/4), FP.num (1/4), FP.num (-1)⟩, FP.num 0,
  ⟨FP.num 0, FP.num 0, FP.num 1⟩, FP.pinf⟩

/-- A single triangle `(1,0,0), (0,1,0), (0,-1,0)` whose AABB has its max-x
face at `x = 1`. -/
def gmesh : Mesh := ⟨3, 1,
  [FP.num 1, FP.num 0, FP.num 0,
   FP.num 0, FP.num 1, FP.num 0,
   FP.num 0, FP.num (-1), FP.num 0],
  [0, 1, 2]⟩

/-- A ray through the vertex `(1,0,0)` of `gmesh`, with `direction.x = 0` and
origin exactly on the `x = 1` bounding plane: origin `(1, 0, -1)`, direction
`(0,0,1)`. -/
def gray : Ray := ⟨⟨FP.num 1, FP.num 0, FP.num (-1)⟩, FP.num 0,
  ⟨FP.num 0, FP.num 0, FP.num 1⟩, FP.pinf⟩

/-- Five distinct triangles that all share the centroid `(0,0,0)` (triangle
`k` has vertices `(k+1,0,0)`, `(0,k+1,0)`, `(-(k+1),-(k+1),0)`), the shape of
scenario S6's degenerate-centroid input, with `T = 5 > MAX_NODE_SIZE` so the
builder must take the binned-SAH path. -/
def c6mesh : Mesh := ⟨15, 5,
  [FP.num 1, FP.num 0, FP.num 0,  FP.num 0, FP.num 1, FP.num 0,  FP.num (-1), FP.num (-1), FP.num 0,
   FP.num 2, FP.num 0, FP.num 0,  FP.num 0, FP.num 2, FP.num 0,  FP.num (-2), FP.num (-2), FP.num 0,
   FP.num 3, FP.num 0, FP.num 0,  FP.num 0, FP.num 3, FP.num 0,  FP.num (-3), FP.num (-3), FP.num 0,
   FP.num 4, FP.num 0, FP.num 0,  FP.num 0, FP.num 4, FP.num 0,  FP.num (-4), FP.num (-4), FP.num 0,
   FP.num 5, FP.num 0, FP.num 0,  FP.num 0, FP.num 5, FP.num 0,  FP.num (-5), FP.num (-5), FP.num 0],
  [0, 1, 2, 3, 4, 5, 6, 7, 8, 9, 10, 11, 12, 13, 14]⟩

/-- C1: the claim says a build on the empty mesh (V=0, T=0) yields an
accelerator whose every trace terminates with `TRIANGLE_INVALID`.  In fact
`Simple::build` on the empty mesh is itself faulty: the single allocated node
keeps `count = 0` (the internal-node marker) and `offset = 0`, so the
bounds-propagation pass treats the root as an internal node and reads node
index 1 past the end of the one-element node array — undefined behaviour,
modelled as `none` here for every fuel bound. -/
theorem build_empty_mesh_faults : ∀ fuel : ℕ, Simple.build fuel emptyAccel emptyMesh = none := by
  intro fuel
  cases fuel with
  | zero => rfl
  | succ n => rfl

/-- C6: the claim quantifies over every mesh with `T ≥ 1`, but on a mesh of
five distinct triangles sharing one centroid (the shape the spec's scenario
S6 demands must build successfully) the binned-SAH path divides by the zero
centroid extent, getting `bin_scale = +inf`, computes the bin index as
`static_cast<uint32_t>(0 * inf) = static_cast<uint32_t>(nan)` — undefined
behaviour — so the build faults (for every fuel bound) and no leaf partition
of `{0, ..., T-1}` exists. -/
theorem build_degenerate_centroids_faults :
    ∀ fuel : ℕ, Simple.build fuel emptyAccel c6mesh = none := by
  intro fuel
  cases fuel with
  | zero => rfl
  | succ n => with_unfolding_all rfl

/-- C3: the claim says `build` clears the node and triangle arrays first, so
building twice with the same mesh is bitwise idempotent.  In fact the source
never clears `_nodes` / `_triangles`; on the one-triangle S1 mesh the second
build appends a second root and a second triangle copy (arrays of lengths 2
and 2) instead of reproducing the single-build arrays (lengths 1 and 1). -/
theorem rebuild_not_idempotent :
    ((Simple.build 8 emptyAccel s1mesh).bind (fun a => Simple.build 8 a s1mesh)).map
        (fun a => (a.nodes.length, a.triangles.length)) = some (2, 2) ∧
    (Simple.build 8 emptyAccel s1mesh).map
        (fun a => (a.nodes.length, a.triangles.length)) = some (1, 1) :=
  ⟨by with_unfolding_all rfl, by with_unfolding_all rfl⟩

/-- C4 counterexample: the claim says that in scenario S1 the input ray's
`max_t` field equals `1.0` after `trace` returns.  The traverser copies
`max_t` into a function-local and never stores to the caller's ray array, so
after the call the ray's `max_t` is still `+inf`, not `1.0`. -/
theorem trace_does_not_shrink_ray_maxt :
    ((Simple.build 8 emptyAccel s1mesh).bind (fun a => Simple.trace a [s1ray] 0 32)).map
        (fun out => out.1.map Ray.max_t) = some [FP.pinf] ∧
    FP.pinf ≠ FP.num 1 :=
  ⟨by with_unfolding_all rfl, by decide⟩

/-- C4 amended: `trace` tracks the shrinking closest-hit bound in a
function-local copy of `max_t` and leaves the caller's ray array unchanged;
in scenario S1 the traversal ends with the local `max_t` equal to `1.0` (the
closest-hit distance) and the hit `triangle = 0`, `barycentrics (0.25,
0.25)`, while the input ray still has `max_t = +inf`. -/
theorem trace_s1_local_maxt :
    (Simple.build 8 emptyAccel s1mesh).bind (fun a => trace_ray a 0 32 s1ray) =
      some (⟨0, FP.num (1/4), FP.num (1/4)⟩, FP.num 1) ∧
    (Simple.build 8 emptyAccel s1mesh).bind (fun a => Simple.trace a [s1ray] 0 32) =
      some ([s1ray], [⟨0, FP.num (1/4), FP.num (1/4)⟩]) :=
  ⟨by with_unfolding_all rfl, by with_unfolding_all rfl⟩

/-- C5: the claim says trace-after-build agrees with the brute-force loop on
every mesh of at most 1000 triangles and every ray with non-zero direction,
finite origin and `0 ≤ min_t ≤ max_t`.  On the one-triangle mesh `gmesh` and
ray `gray` (origin on the root box's `x = 1` plane with `direction.x = 0`,
passing exactly through a vertex) the slab test computes `0 * inf = nan` on
the x axis, which drives its running `tmax` to `-inf` and rejects the root,
so trace reports `TRIANGLE_INVALID` — while the brute-force reference finds
the hit on triangle 0 at `t = 1`.  (This also breaks the spec's own
watertightness property 6, so the code, not the claim, is at fault.) -/
theorem bvh_misses_bruteforce_hit :
    ((Simple.build 8 emptyAccel gmesh).bind (fun a => Simple.trace a [gray] 0 32)).map
        (fun out => out.2.map Hit.triangle) = some [TRIANGLE_INVALID] ∧
    brute_force gmesh gray = some (some (0, FP.num 1)) :=
  ⟨by with_unfolding_all rfl, by with_unfolding_all rfl⟩

/-- C2 counterexample: the claim says a shadow-mode ray that intersects some
triangle gets a Hit with `triangle == 0` (an "occluded" sentinel).  On
`c2mesh`, the shadow ray `c2ray` intersects only triangle 1, and the code
stores that triangle's index — the hit records `triangle = 1`, not 0. -/
theorem shadow_sentinel_counterexample :
    ((Simple.build 8 emptyAccel c2mesh).bind
        (fun a => Simple.trace a [c2ray] TRACE_SHADOW 32)).map
        (fun out => out.2.map Hit.triangle) = some [1] ∧ (1 : ℕ) ≠ 0 :=
  ⟨by with_unfolding_all rfl, by decide⟩

/-- C8 counterexample: the claim says `max_dim` breaks ties toward the
earliest axis (x before y before z).  At `(1,1,1)` all three magnitudes tie,
so the claimed rule returns 0, but the code's strict comparisons fall through
to 2. -/
theorem max_dim_tie_counterexample :
    max_dim ⟨FP.num 1, FP.num 1, FP.num 1⟩ = 2 ∧ (2 : ℕ) ≠ 0 := by
  decide

/-- Helper: on every `return false` path the Woop kernel leaves the output
locations (`bary[0]`, `bary[1]`, `*d`) at their input values. -/
theorem woop_frame (r32 r64 : FP → FP) (r : WoopRay) (min_t max_t : FP)
    (p0 p1 p2 : v3) (b0 b1 d : FP)
    (h : (woop_ray_vs_triangle r32 r64 r min_t max_t p0 p1 p2 b0 b1 d).hitb = false) :
    woop_ray_vs_triangle r32 r64 r min_t max_t p0 p1 p2 b0 b1 d = ⟨b0, b1, d, false⟩ := by
  simp only [woop_ray_vs_triangle] at h ⊢
  split_ifs at h ⊢ <;> simp_all

/-- Index into the rational triple `(a, b, c)` in the component order of
`v3` (a specification-side helper for stating the `max_dim` property). -/
def qcomp (a b c : ℚ) : ℕ → ℚ
  | 0 => a
  | 1 => b
  | _ => c

/-- Helper: the kernel's boolean verdict does not depend on the values behind
the output pointers. -/
theorem woop_ok_indep (r32 r64 : FP → FP) (r : WoopRay) (min_t max_t : FP)
    (p0 p1 p2 : v3) (b0 b1 d b0a b1a da : FP) :
    (woop_ray_vs_triangle r32 r64 r min_t max_t p0 p1 p2 b0 b1 d).hitb =
    (woop_ray_vs_triangle r32 r64 r min_t max_t p0 p1 p2 b0a b1a da).hitb := by
  simp only [woop_ray_vs_triangle]
  split_ifs <;> rfl

/-- C10: whenever `woop_ray_vs_triangle` returns false, it has not written
through its output parameters: the barycentric pair and the distance location
keep exactly the values they held at entry, for every rounding model. -/
theorem woop_no_hit_frame :
    ∀ (r32 r64 : FP → FP) (r : WoopRay) (min_t max_t : FP) (p0 p1 p2 : v3) (b0 b1 d : FP),
      (woop_ray_vs_triangle r32 r64 r min_t max_t p0 p1 p2 b0 b1 d).hitb = false →
      (woop_ray_vs_triangle r32 r64 r min_t max_t p0 p1 p2 b0 b1 d).bary0 = b0 ∧
      (woop_ray_vs_triangle r32 r64 r min_t max_t p0 p1 p2 b0 b1 d).bary1 = b1 ∧
      (woop_ray_vs_triangle r32 r64 r min_t max_t p0 p1 p2 b0 b1 d).d = d := by
  intro r32 r64 r min_t max_t p0 p1 p2 b0 b1 d h
  rw [woop_frame r32 r64 r min_t max_t p0 p1 p2 b0 b1 d h]
  exact ⟨rfl, rfl, rfl⟩

/-- C10 witness: a concrete miss (the mixed-sign rejection of triangle 0 of
`c2mesh` by the shadow ray `c2ray`) with distinctive sentinel values 7, 8, 9
behind the output pointers, all left untouched. -/
theorem woop_no_hit_frame_witness :
    (woop_ray_vs_triangle id id (woop_ray c2ray.origin c2ray.direction)
      (FP.num 0) FP.pinf ⟨FP.num 0, FP.num 0, FP.num 0⟩ ⟨FP.num 1, FP.num 0, FP.num 0⟩
      ⟨FP.num 0, FP.num 1, FP.num 0⟩ (FP.num 7) (FP.num 8) (FP.num 9)).bary0 = FP.num 7 ∧
    (woop_ray_vs_triangle id id (woop_ray c2ray.origin c2ray.direction)
      (FP.num 0) FP.pinf ⟨FP.num 0, FP.num 0, FP.num 0⟩ ⟨FP.num 1, FP.num 0, FP.num 0⟩
      ⟨FP.num 0, FP.num 1, FP.num 0⟩ (FP.num 7) (FP.num 8) (FP.num 9)).bary1 = FP.num 8 ∧
    (woop_ray_vs_triangle id id (woop_ray c2ray.origin c2ray.direction)
      (FP.num 0) FP.pinf ⟨FP.num 0, FP.num 0, FP.num 0⟩ ⟨FP.num 1, FP.num 0, FP.num 0⟩
      ⟨FP.num 0, FP.num 1, FP.num 0⟩ (FP.num 7) (FP.num 8) (FP.num 9)).d = FP.num 9 :=
  woop_no_hit_frame id id (woop_ray c2ray.origin c2ray.direction)
    (FP.num 0) FP.pinf ⟨FP.num 0, FP.num 0, FP.num 0⟩ ⟨FP.num 1, FP.num 0, FP.num 0⟩
    ⟨FP.num 0, FP.num 1, FP.num 0⟩ (FP.num 7) (FP.num 8) (FP.num 9)
    (by with_unfolding_all decide)

/-- C9: `Simple::trace` never writes to the caller's ray array — whenever a
trace call completes, the ray-array component of the result equals the input
rays (the traverser reads each ray into locals, including its own running
copy of `max_t`, and only ever stores to the hit output array). -/
theorem trace_preserves_rays :
    ∀ (acc : Accel) (rays : List Ray) (flags fuel : ℕ) (out : List Ray × List Hit),
      Simple.trace acc rays flags fuel = some out → out.1 = rays := by
  intro acc rays flags fuel out h
  unfold Simple.trace at h
  cases hm : rays.mapM (trace_ray acc flags fuel) with
  | none => rw [hm] at h; cases h
  | some results =>
      rw [hm] at h
      cases h
      rfl

/-- The single-leaf accelerator `Simple::build` produces from `s1mesh`. -/
def s1accel : Accel :=
  ⟨[{ nmin := ⟨FP.num 0, FP.num 0, FP.num 0⟩, nmax := ⟨FP.num 1, FP.num 1, FP.num 0⟩,
      offset := 0, count := 1, axis := 0 }],
   [⟨⟨FP.num 0, FP.num 0, FP.num 0⟩, ⟨FP.num 1, FP.num 0, FP.num 0⟩,
     ⟨FP.num 0, FP.num 1, FP.num 0⟩, 0⟩]⟩

/-- C9 witness: a completed concrete trace (scenario S1 against its built
accelerator) whose ray-array component is the input ray list. -/
theorem trace_preserves_rays_witness :
    (([s1ray], [(⟨0, FP.num (1/4), FP.num (1/4)⟩ : Hit)]) : List Ray × List Hit).1 = [s1ray] :=
  trace_preserves_rays s1accel [s1ray] 0 32 ([s1ray], [⟨0, FP.num (1/4), FP.num (1/4)⟩])
    (by with_unfolding_all rfl)

/-- C8 amended: `max_dim` returns an index in `{0,1,2}` whose component has
the largest absolute value, but ties are broken toward the *later* axis
(z over y over x): an earlier axis is returned only when its magnitude
strictly exceeds the later ones, so no axis after the returned one attains
the maximum. -/
theorem max_dim_amended :
    ∀ (a b c : ℚ) (k : ℕ), k < 3 →
      max_dim ⟨FP.num a, FP.num b, FP.num c⟩ < 3 ∧
      |qcomp a b c k| ≤ |qcomp a b c (max_dim ⟨FP.num a, FP.num b, FP.num c⟩)| ∧
      (max_dim ⟨FP.num a, FP.num b, FP.num c⟩ < k →
        |qcomp a b c k| < |qcomp a b c (max_dim ⟨FP.num a, FP.num b, FP.num c⟩)|) := by
  intro a b c k hk
  have hk3 : k = 0 ∨ k = 1 ∨ k = 2 := by omega
  unfold max_dim
  simp only [FP.bgt, FP.blt, FP.fabs, decide_eq_true_eq]
  split_ifs with h1 h2 h3 <;>
    rcases hk3 with rfl | rfl | rfl <;>
    refine ⟨by omega, ?_, ?_⟩ <;>
    simp only [qcomp] <;>
    first
      | (intro hlt; exact absurd hlt (by omega))
      | linarith
      | (intro hlt; linarith)

/-- C8 amended witness: at the all-ties vector `(1,1,1)` with `k = 0` the
returned axis is in range and carries the (tied) maximal magnitude. -/
theorem max_dim_amended_witness :
    max_dim ⟨FP.num 1, FP.num 1, FP.num 1⟩ < 3 ∧
    |qcomp 1 1 1 0| ≤ |qcomp 1 1 1 (max_dim ⟨FP.num 1, FP.num 1, FP.num 1⟩)| ∧
    (max_dim ⟨FP.num 1, FP.num 1, FP.num 1⟩ < 0 →
      |qcomp 1 1 1 0| < |qcomp 1 1 1 (max_dim ⟨FP.num 1, FP.num 1, FP.num 1⟩)|) :=
  max_dim_amended 1 1 1 0 (by decide)

/-- C7: in the Woop kernel, (i) whenever any of the first-pass
single-precision edge functions `U, V, W` is exactly zero, the values used
from then on are the three recomputed in double precision and cast back to
single (`woopUVW2`); (ii) the test reports no hit when the (post-fallback)
`U, V, W` do not all share a sign — some strictly negative and some strictly
positive, zeros permitted; and (iii) it reports no hit when
`det = U + V + W` compares equal to zero.  Proved for every rounding model
`r32`, `r64`. -/
theorem woop_fallback_and_reject :
    ∀ (r32 r64 : FP → FP) (r : WoopRay) (min_t max_t : FP) (p0 p1 p2 : v3) (b0 b1 d : FP),
      ((FP.beq (woopUVW1 r32 r p0 p1 p2).1 (FP.num 0) ||
        FP.beq (woopUVW1 r32 r p0 p1 p2).2.1 (FP.num 0) ||
        FP.beq (woopUVW1 r32 r p0 p1 p2).2.2 (FP.num 0)) = true →
        woopUVW r32 r64 r p0 p1 p2 = woopUVW2 r32 r64 r p0 p1 p2) ∧
      (((FP.blt (woopUVW r32 r64 r p0 p1 p2).1 (FP.num 0) ||
         FP.blt (woopUVW r32 r64 r p0 p1 p2).2.1 (FP.num 0) ||
         FP.blt (woopUVW r32 r64 r p0 p1 p2).2.2 (FP.num 0)) &&
        (FP.bgt (woopUVW r32 r64 r p0 p1 p2).1 (FP.num 0) ||
         FP.bgt (woopUVW r32 r64 r p0 p1 p2).2.1 (FP.num 0) ||
         FP.bgt (woopUVW r32 r64 r p0 p1 p2).2.2 (FP.num 0))) = true →
        (woop_ray_vs_triangle r32 r64 r min_t max_t p0 p1 p2 b0 b1 d).hitb = false) ∧
      (FP.beq (r32 (r32 ((woopUVW r32 r64 r p0 p1 p2).1 + (woopUVW r32 r64 r p0 p1 p2).2.1) +
          (woopUVW r32 r64 r p0 p1 p2).2.2)) (FP.num 0) = true →
        (woop_ray_vs_triangle r32 r64 r min_t max_t p0 p1 p2 b0 b1 d).hitb = false) := by
  intro r32 r64 r min_t max_t p0 p1 p2 b0 b1 d
  refine ⟨fun h => ?_, fun h => ?_, fun h => ?_⟩
  · simp only [woopUVW, h, if_true]
  · simp only [woop_ray_vs_triangle, h, if_true]
  · by_cases hc : ((FP.blt (woopUVW r32 r64 r p0 p1 p2).1 (FP.num 0) ||
        FP.blt (woopUVW r32 r64 r p0 p1 p2).2.1 (FP.num 0) ||
        FP.blt (woopUVW r32 r64 r p0 p1 p2).2.2 (FP.num 0)) &&
       (FP.bgt (woopUVW r32 r64 r p0 p1 p2).1 (FP.num 0) ||
        FP.bgt (woopUVW r32 r64 r p0 p1 p2).2.1 (FP.num 0) ||
        FP.bgt (woopUVW r32 r64 r p0 p1 p2).2.2 (FP.num 0))) = true
    · simp only [woop_ray_vs_triangle, hc, if_true]
    · simp only [woop_ray_vs_triangle, hc, h, if_true, if_false, Bool.not_eq_true] at *
      simp [hc, h]

/-- The Woop ray with the trivial shear (dominant axis z, origin 0): org 0,
`Sx = Sy = 0`, `Sz = 1`, identity axis permutation. -/
def wr0 : WoopRay :=
  ⟨⟨FP.num 0, FP.num 0, FP.num 0⟩, FP.num 0, FP.num 0, FP.num 1, 0, 1, 2⟩

/-- C7 witness: with exact roundings and vertices `(1,0,0), (1,0,0), (0,1,0)`
the first-pass edge functions are `(-1, 1, 0)` — a zero triggers the
fallback, the signs are mixed, and `det = 0` — so all three hypotheses hold
concretely and the kernel reports no hit. -/
theorem woop_fallback_and_reject_witness :
    woopUVW id id wr0 ⟨FP.num 1, FP.num 0, FP.num 0⟩ ⟨FP.num 1, FP.num 0, FP.num 0⟩
        ⟨FP.num 0, FP.num 1, FP.num 0⟩ =
      woopUVW2 id id wr0 ⟨FP.num 1, FP.num 0, FP.num 0⟩ ⟨FP.num 1, FP.num 0, FP.num 0⟩
        ⟨FP.num 0, FP.num 1, FP.num 0⟩ ∧
    (woop_ray_vs_triangle id id wr0 (FP.num 0) FP.pinf ⟨FP.num 1, FP.num 0, FP.num 0⟩
        ⟨FP.num 1, FP.num 0, FP.num 0⟩ ⟨FP.num 0, FP.num 1, FP.num 0⟩
        (FP.num 0) (FP.num 0) (FP.num 0)).hitb = false :=
  And.intro
    ((woop_fallback_and_reject id id wr0 (FP.num 0) FP.pinf
        ⟨FP.num 1, FP.num 0, FP.num 0⟩ ⟨FP.num 1, FP.num 0, FP.num 0⟩
        ⟨FP.num 0, FP.num 1, FP.num 0⟩ (FP.num 0) (FP.num 0) (FP.num 0)).1
      (by with_unfolding_all decide))
    ((woop_fallback_and_reject id id wr0 (FP.num 0) FP.pinf
        ⟨FP.num 1, FP.num 0, FP.num 0⟩ ⟨FP.num 1, FP.num 0, FP.num 0⟩
        ⟨FP.num 0, FP.num 1, FP.num 0⟩ (FP.num 0) (FP.num 0) (FP.num 0)).2.1
      (by with_unfolding_all decide))

/-- Whether the Woop kernel (exact-arithmetic instantiation) accepts a stored
triangle for a prepared ray on `[min_t, max_t]`; by `woop_ok_indep` the
verdict does not depend on the output-pointer arguments, fixed at 0 here. -/
def woopHitB (wr : WoopRay) (min_t max_t : FP) (t : Triangle) : Bool :=
  (woop_ray_vs_triangle id id wr min_t max_t t.p0 t.p1 t.p2
    (FP.num 0) (FP.num 0) (FP.num 0)).hitb

/-- Helper: in shadow mode the leaf loop either finds nothing — leaving the
hit record and the running `max_t` exactly as they were — or breaks on the
first accepted triangle, which is a stored triangle intersected on the
original `[min_t, max_t]` interval. -/
theorem leaf_loop_shadow_sound (acc : Accel) (flags : ℕ) (wr : WoopRay) (min_t : FP)
    (hsh : flags &&& TRACE_SHADOW ≠ 0) :
    ∀ (todo offset : ℕ) (hit : Hit) (maxt : FP) (out : Hit × FP × Bool),
      leaf_loop acc flags wr min_t offset todo hit maxt = some out →
      (out.2.2 = false → out = (hit, maxt, false)) ∧
      (out.2.2 = true → ∃ tri, tri ∈ acc.triangles ∧ tri.index = out.1.triangle ∧
        woopHitB wr min_t maxt tri = true) := by
  intro todo
  induction todo with
  | zero =>
    intro offset hit maxt out h
    simp only [leaf_loop] at h
    cases h
    exact ⟨fun _ => rfl, fun ht => nomatch ht⟩
  | succ n ih =>
    intro offset hit maxt out h
    simp only [leaf_loop] at h
    cases hg : acc.triangles.get? offset with
    | none => rw [hg] at h; cases h
    | some tri =>
      rw [hg] at h
      simp only [decide_eq_true hsh, Bool.and_true] at h
      by_cases hw : (woop_ray_vs_triangle id id wr min_t maxt tri.p0 tri.p1 tri.p2
          hit.bary0 hit.bary1 maxt).hitb = true
      · rw [if_pos hw] at h
        cases h
        have hmem : tri ∈ acc.triangles := List.get?_mem hg
        have hidx : tri.index =
            (({ triangle := if (woop_ray_vs_triangle id id wr min_t maxt tri.p0 tri.p1 tri.p2
                  hit.bary0 hit.bary1 maxt).hitb then tri.index else hit.triangle,
                bary0 := (woop_ray_vs_triangle id id wr min_t maxt tri.p0 tri.p1 tri.p2
                  hit.bary0 hit.bary1 maxt).bary0,
                bary1 := (woop_ray_vs_triangle id id wr min_t maxt tri.p0 tri.p1 tri.p2
                  hit.bary0 hit.bary1 maxt).bary1 } : Hit),
              (woop_ray_vs_triangle id id wr min_t maxt tri.p0 tri.p1 tri.p2
                hit.bary0 hit.bary1 maxt).d, true).1.triangle := by
          simp [hw]
        have hhit : woopHitB wr min_t maxt tri = true := by
          unfold woopHitB
          rw [woop_ok_indep id id wr min_t maxt tri.p0 tri.p1 tri.p2
            (FP.num 0) (FP.num 0) (FP.num 0) hit.bary0 hit.bary1 maxt]
          exact hw
        exact And.intro (fun hf => absurd hf (by simp))
          (fun _ => Exists.intro tri (And.intro hmem (And.intro hidx hhit)))
      · rw [if_neg hw] at h
        have hwf : (woop_ray_vs_triangle id id wr min_t maxt tri.p0 tri.p1 tri.p2
            hit.bary0 hit.bary1 maxt).hitb = false := by
          cases hx : (woop_ray_vs_triangle id id wr min_t maxt tri.p0 tri.p1 tri.p2
              hit.bary0 hit.bary1 maxt).hitb
          · rfl
          · exact absurd hx hw
        have hfr := woop_frame id id wr min_t maxt tri.p0 tri.p1 tri.p2
          hit.bary0 hit.bary1 maxt hwf
        rw [hfr] at h
        exact ih (offset + 1) hit maxt out h

/-- Helper: in shadow mode, starting from a miss record (`TRIANGLE_INVALID`)
with running bound `M`, whenever the traversal loop completes with a
non-invalid triangle, that triangle is a stored triangle of the accelerator,
the reported index is its original index, and the Woop kernel accepts it on
the original interval `[min_t, M]`. -/
theorem trace_loop_shadow_sound (acc : Accel) (flags : ℕ) (wr : WoopRay)
    (org dir inv_dir : v3) (min_t M : FP) (hsh : flags &&& TRACE_SHADOW ≠ 0) :
    ∀ (fuel : ℕ) (stack : List ℕ) (node : ℕ) (hit : Hit) (out : Hit × FP),
      hit.triangle = TRIANGLE_INVALID →
      trace_loop acc flags wr org dir inv_dir min_t fuel stack node hit M = some out →
      out.1.triangle ≠ TRIANGLE_INVALID →
      ∃ tri, tri ∈ acc.triangles ∧ tri.index = out.1.triangle ∧
        woopHitB wr min_t M tri = true := by
  intro fuel
  induction fuel with
  | zero =>
    intro stack node hit out hinv h hne
    cases h
  | succ n ih =>
    intro stack node hit out hinv h hne
    simp only [trace_loop] at h
    split at h
    · cases h
    · rename_i nd hg
      by_cases hb : ray_vs_bounds org inv_dir min_t M nd.nmin nd.nmax = true
      · rw [if_pos hb] at h
        by_cases hc : nd.count = 0
        · rw [if_pos hc] at h
          by_cases hd : FP.bgt (dir.get nd.axis) (FP.num 0) = true
          · rw [if_pos hd] at h
            exact ih _ _ _ _ hinv h hne
          · rw [if_neg hd] at h
            exact ih _ _ _ _ hinv h hne
        · rw [if_neg hc] at h
          split at h
          · cases h
          · rename_i hit2 maxt2 brk hl
            have hls := leaf_loop_shadow_sound acc flags wr min_t hsh
              nd.count nd.offset hit M (hit2, maxt2, brk) hl
            cases brk with
            | true =>
              cases h
              obtain ⟨tri, hmem, hidx, hwoop⟩ := hls.2 rfl
              exact ⟨tri, hmem, hidx, hwoop⟩
            | false =>
              have he := hls.1 rfl
              have e1 : hit2 = hit := congrArg Prod.fst he
              have e2 : maxt2 = M := congrArg (fun p => p.2.1) he
              rw [e1, e2] at h
              cases stack with
              | nil =>
                cases h
                exact absurd hinv hne
              | cons top rest =>
                exact ih rest top hit out hinv h hne
      · rw [if_neg hb] at h
        cases stack with
        | nil =>
          cases h
          exact absurd hinv hne
        | cons top rest =>
          exact ih rest top hit out hinv h hne

/-- C2 amended: for every completed shadow-mode trace of a ray, the hit
record is `TRIANGLE_INVALID` unless the ray genuinely intersects one of the
accelerator's stored triangles within the ray's `[min_t, max_t]`, and in that
case the `triangle` field holds that triangle's original mesh index — not a
constant `0` "occluded" sentinel.  (Equivalently: rays with no intersection
always get `TRIANGLE_INVALID`, and a reported hit names an intersected
triangle.) -/
theorem shadow_hit_soundness :
    ∀ (acc : Accel) (flags fuel : ℕ) (r : Ray) (h : Hit) (t : FP),
      flags &&& TRACE_SHADOW ≠ 0 →
      trace_ray acc flags fuel r = some (h, t) →
      h.triangle ≠ TRIANGLE_INVALID →
      ∃ tri, tri ∈ acc.triangles ∧ tri.index = h.triangle ∧
        woopHitB (woop_ray r.origin r.direction) r.min_t r.max_t tri = true := by
  intro acc flags fuel r h t hsh htr hne
  unfold trace_ray at htr
  exact trace_loop_shadow_sound acc flags (woop_ray r.origin r.direction)
    r.origin r.direction
    ⟨FP.num 1 / r.direction.x, FP.num 1 / r.direction.y, FP.num 1 / r.direction.z⟩
    r.min_t r.max_t hsh fuel [] 0 ⟨TRIANGLE_INVALID, FP.num 0, FP.num 0⟩ (h, t) rfl htr hne

/-- The single-leaf accelerator `Simple::build` produces from `c2mesh`. -/
def c2accel : Accel :=
  ⟨[{ nmin := ⟨FP.num 0, FP.num 0, FP.num 0⟩, nmax := ⟨FP.num 3, FP.num 1, FP.num 0⟩,
      offset := 0, count := 2, axis := 0 }],
   [⟨⟨FP.num 0, FP.num 0, FP.num 0⟩, ⟨FP.num 1, FP.num 0, FP.num 0⟩,
     ⟨FP.num 0, FP.num 1, FP.num 0⟩, 0⟩,
    ⟨⟨FP.num 2, FP.num 0, FP.num 0⟩, ⟨FP.num 3, FP.num 0, FP.num 0⟩,
     ⟨FP.num 2, FP.num 1, FP.num 0⟩, 1⟩]⟩

/-- C2 amended witness: the concrete shadow trace of `c2ray` against
`c2accel` completes with `triangle = 1 ≠ TRIANGLE_INVALID`, so some stored
triangle with original index 1 is intersected on the ray's interval. -/
theorem shadow_hit_soundness_witness :
    ∃ tri, tri ∈ c2accel.triangles ∧ tri.index = (⟨1, FP.num (1/4), FP.num (1/4)⟩ : Hit).triangle ∧
      woopHitB (woop_ray c2ray.origin c2ray.direction) c2ray.min_t c2ray.max_t tri = true :=
  shadow_hit_soundness c2accel TRACE_SHADOW 32 c2ray ⟨1, FP.num (1/4), FP.num (1/4)⟩ (FP.num 1)
    (by decide) (by with_unfolding_all rfl) (by decide)
